import Mathlib

/-!
Shallow embedding of the molrender decision layer (molstar/molrender).

The definitions below translate, into Lean, the pure decision functions of
`src/render.ts` (structure-size classification, representation planning,
camera-state updates, color-theme selection), `src/expression.ts` (the
selection expressions), `src/focus-camera/focus-first-residue.ts` together
with `src/focus-camera/focus-util.ts` (the canonical orientation flips),
`src/render-main.ts` (the CLI path checks) and the `renderAll` orchestration.
External molstar collaborators (selection-query membership, bounding spheres,
derived polymer-unit counts, `Math.sqrt`) are modelled as explicit parameters
or as per-atom membership flags, which is exactly the granularity at which
the code reads them.
-/

namespace Molrender

/-! ## Structure-size classification (src/render.ts, getStructureSize / isFiberLike) -/

/-- A unit of a unit-symmetry group; only its `polymerElements` array is read
by the classifier, so only that field is modelled. -/
structure SymUnit where
  polymerElements : List Nat
deriving Repr, DecidableEq

/-- A unit-symmetry group: the list of its member units. -/
structure UnitSymmetryGroup where
  units : List SymUnit
deriving Repr, DecidableEq

/-- Length of `units[0].polymerElements` as read by the source; a group in
molstar always has at least one unit, the empty case is mapped to 0. -/
def firstUnitPolymerLen (ug : UnitSymmetryGroup) : Nat :=
  match ug.units with
  | [] => 0
  | u :: _ => u.polymerElements.length

/-- Per-atom membership flags for the molstar structure-selection query
classes used by the renderer. The queries themselves (Q.polymer, Q.water,
Q.ion, ...) are external collaborators; an atom is modelled by which of
those classes it belongs to, which is the only information the renderer
reads about it. -/
structure Atom where
  polymer : Bool := false
  water : Bool := false
  ion : Bool := false
  ligandPlusConnected : Bool := false
  branchedPlusConnected : Bool := false
  branchedConnectedOnly : Bool := false
  disulfideBridges : Bool := false
  nonStandardPolymer : Bool := false
  trace : Bool := false
  nucleic : Bool := false
deriving Repr, DecidableEq

/-- The fields of a molstar `Structure` that the decision layer reads:
the atom list (with query-class flags), the precomputed polymer residue
count, the polymer unit count, and the unit-symmetry groups. -/
structure MolStructure where
  atoms : List Atom := []
  polymerResidueCount : Nat := 0
  polymerUnitCount : Nat := 0
  unitSymmetryGroups : List UnitSymmetryGroup := []
deriving Repr, DecidableEq

/-- Size classes, from the `StructureSize` enum in src/render.ts. -/
inductive StructureSize
  | Big
  | Medium
  | Small
deriving Repr, DecidableEq

/-- Translation of `isFiberLike` (src/render.ts lines 102-112): filter the
unit-symmetry groups to those whose first unit has at least one polymer
element; the structure is fiber-like when exactly one group remains, that
group has more than 2 units, and its first unit has fewer than 15 polymer
elements. -/
def isFiberLike (s : MolStructure) : Bool :=
  let polymerSymmetryGroups :=
    s.unitSymmetryGroups.filter (fun ug => decide (0 < firstUnitPolymerLen ug))
  match polymerSymmetryGroups with
  | [g] => decide (2 < g.units.length) && decide (firstUnitPolymerLen g < 15)
  | _ => false

/-- Translation of `getStructureSize` (src/render.ts lines 114-124): the
Big residue-count rule is tested first, then the fiber rule, then the
small residue-count rule, with Medium as the fallback. -/
def getStructureSize (s : MolStructure) : StructureSize :=
  if 4000 < s.polymerResidueCount then StructureSize.Big
  else if isFiberLike s then StructureSize.Small
  else if s.polymerResidueCount < 10 then StructureSize.Small
  else StructureSize.Medium

/-- A fiber-like example structure: one polymer symmetry group of 3 units
with 10 polymer elements each, and 5000 polymer residues. -/
def fiberUnit10 : SymUnit :=
  ⟨[0, 1, 2, 3, 4, 5, 6, 7, 8, 9]⟩

/-- The synthetic fiber-like structure of the classification claim:
5000 polymer residues, one symmetry group, 3 units of 10 polymer atoms. -/
def fiber5000 : MolStructure :=
  { atoms := []
    polymerResidueCount := 5000
    polymerUnitCount := 3
    unitSymmetryGroups := [⟨[fiberUnit10, fiberUnit10, fiberUnit10]⟩] }

/-- The same fiber-like shape with only 500 polymer residues. -/
def fiber500 : MolStructure :=
  { atoms := []
    polymerResidueCount := 500
    polymerUnitCount := 3
    unitSymmetryGroups := [⟨[fiberUnit10, fiberUnit10, fiberUnit10]⟩] }

/-- A non-fiber structure with the given polymer residue count. -/
def plainStructure (n : Nat) : MolStructure :=
  { atoms := [], polymerResidueCount := n, polymerUnitCount := 1, unitSymmetryGroups := [] }

/-! ## Selection expressions (src/expression.ts) and rendering plan (src/render.ts) -/

/-- Q.polymer.expression: selects atoms in the polymer class. -/
def polymerExpression (a : Atom) : Bool := a.polymer

/-- Q.branchedPlusConnected.expression: branched carbohydrate atoms plus
their connected atoms. -/
def branchedPlusConnectedExpression (a : Atom) : Bool := a.branchedPlusConnected

/-- SmallFocusExpression (src/expression.ts): everything except water. -/
def SmallFocusExpression (a : Atom) : Bool := !a.water

/-- RepresentationExpression (src/expression.ts): merge of ion,
ligandPlusConnected, branchedConnectedOnly, disulfideBridges and
nonStandardPolymer. -/
def RepresentationExpression (a : Atom) : Bool :=
  a.ion || a.ligandPlusConnected || a.branchedConnectedOnly ||
    a.disulfideBridges || a.nonStandardPolymer

/-- RepresentationExpressionNoBranched (src/expression.ts): the same merge
without branchedConnectedOnly. -/
def RepresentationExpressionNoBranched (a : Atom) : Bool :=
  a.ion || a.ligandPlusConnected || a.disulfideBridges || a.nonStandardPolymer

/-- FocusExpression (src/expression.ts): merge of trace, nucleic,
branchedPlusConnected, ion, ligandPlusConnected, branchedConnectedOnly,
disulfideBridges and nonStandardPolymer. -/
def FocusExpression (a : Atom) : Bool :=
  a.trace || a.nucleic || a.branchedPlusConnected || a.ion ||
    a.ligandPlusConnected || a.branchedConnectedOnly ||
    a.disulfideBridges || a.nonStandardPolymer

/-- FocusExpressionNoBranched (src/expression.ts): the same merge without
the two branched classes. -/
def FocusExpressionNoBranched (a : Atom) : Bool :=
  a.trace || a.nucleic || a.ion || a.ligandPlusConnected ||
    a.disulfideBridges || a.nonStandardPolymer

/-- getStructureFromExpression: compiling and running a selection expression
over a structure keeps exactly the atoms in the selected classes. -/
def getStructureFromExpression (atoms : List Atom) (e : Atom → Bool) : List Atom :=
  atoms.filter e

/-- getColorTheme (src/render.ts lines 91-95), as a function of the
structure's polymerUnitCount, the only field it reads. -/
def getColorTheme (polymerUnitCount : Nat) : String :=
  if polymerUnitCount == 1 then "sequence-id"
  else if polymerUnitCount < 40 then "polymer-index"
  else "polymer-id"

/-- JS object-spread override used in `render`: `{ quality,
...options?.colorTheme && ({ colorTheme: options.colorTheme }) }` overrides
the representation default only when the option is present and truthy
(a nonempty string). -/
def resolveColorTheme (override : Option String) (defaultTheme : String) : String :=
  match override with
  | some c => if c = "" then defaultTheme else c
  | none => defaultTheme

/-- Representation layer kinds issued by the renderer. -/
inductive LayerKind
  | cartoon
  | gaussianSurface
  | ballAndStick
  | carbohydrate
deriving Repr, DecidableEq

/-- One representation layer as handed to the external engine: its kind,
the sub-structure it draws (as the atom list selected from the target) and
its color theme. -/
structure Layer where
  kind : LayerKind
  atoms : List Atom
  colorTheme : String
deriving Repr, DecidableEq

/-- The options record of ImageRenderer.render (src/render.ts line 420). -/
structure RenderOptions where
  colorTheme : Option String := none
  suppressSurface : Bool := false
  suppressBranched : Bool := false
deriving Repr, DecidableEq

/-- Camera state fields touched by focusCamera. -/
structure CameraState where
  radius : ℚ := 0
  radiusMax : ℚ := 0
deriving Repr, DecidableEq

/-- focusCamera's final snapshot update (src/render.ts lines 360-363):
both radius and radiusMax are overwritten with the bounding-sphere radius
of the structure it was handed. -/
def focusCamera (st : CameraState) (boundarySphereRadius : ℚ) : CameraState :=
  { st with radius := boundarySphereRadius, radiusMax := boundarySphereRadius }

/-- Result of one ImageRenderer.render call: the layers issued to the
engine in order, the focus structure handed to focusCamera, the camera
state after focusCamera ran on it, and the size class. -/
structure RenderResult where
  layers : List Layer
  focusAtoms : List Atom
  camera : CameraState
  size : StructureSize
deriving Repr, DecidableEq

/-- Translation of ImageRenderer.render (src/render.ts lines 420-450).
`boundary` is the external bounding-sphere-radius computation
(structure.boundary.sphere.radius of a derived structure) and
`puc` the external polymerUnitCount of a derived structure; both are read
only at the interface, so they are passed in as functions of the selected
atom list. -/
def render (boundary : List Atom → ℚ) (puc : List Atom → Nat)
    (s : MolStructure) (options : RenderOptions) : RenderResult :=
  let size := getStructureSize s
  if !options.suppressSurface && size == StructureSize.Big then
    let focusAtoms := getStructureFromExpression s.atoms polymerExpression
    { layers := [⟨LayerKind.gaussianSurface, focusAtoms, getColorTheme (puc focusAtoms)⟩]
      focusAtoms := focusAtoms
      camera := focusCamera {} (boundary focusAtoms)
      size := size }
  else
    let cartoonAtoms := getStructureFromExpression s.atoms polymerExpression
    let cartoonLayer : Layer :=
      ⟨LayerKind.cartoon, cartoonAtoms,
        resolveColorTheme options.colorTheme (getColorTheme (puc cartoonAtoms))⟩
    let carbLayers : List Layer :=
      if !options.suppressBranched then
        [⟨LayerKind.carbohydrate,
          getStructureFromExpression s.atoms branchedPlusConnectedExpression,
          "carbohydrate-symbol"⟩]
      else []
    if size == StructureSize.Small then
      let focusAtoms := getStructureFromExpression s.atoms SmallFocusExpression
      { layers := cartoonLayer :: carbLayers ++ [⟨LayerKind.ballAndStick, focusAtoms, "element-symbol"⟩]
        focusAtoms := focusAtoms
        camera := focusCamera {} (boundary focusAtoms)
        size := size }
    else
      let focusAtoms := getStructureFromExpression s.atoms
        (if options.suppressBranched then FocusExpressionNoBranched else FocusExpression)
      let ballAndStickAtoms := getStructureFromExpression s.atoms
        (if options.suppressBranched then RepresentationExpressionNoBranched else RepresentationExpression)
      { layers := cartoonLayer :: carbLayers ++ [⟨LayerKind.ballAndStick, ballAndStickAtoms, "element-symbol"⟩]
        focusAtoms := focusAtoms
        camera := focusCamera {} (boundary focusAtoms)
        size := size }

/-- ImageRenderer.renderModels (src/render.ts lines 405-412): the ensemble
target; its cartoon color theme is chosen from the representative (first)
model's polymerUnitCount, and the call suppresses the surface path. -/
def renderModelsTarget (boundary : List Atom → ℚ) (puc : List Atom → Nat)
    (ensemble : MolStructure) (firstModelPolymerUnitCount : Nat) : RenderResult :=
  render boundary puc ensemble
    { colorTheme := some (if firstModelPolymerUnitCount == 1 then "sequence-id" else "polymer-id")
      suppressSurface := true
      suppressBranched := false }

/-- The ball-and-stick layers of a render result. -/
def ballAndStickLayers (r : RenderResult) : List Layer :=
  r.layers.filter (fun l => l.kind == LayerKind.ballAndStick)

/-- Definition following the words of the spec (for comparison with the
code): the Medium ball-and-stick set is the union of
ligands-plus-their-connected-atoms, branched-connected-only atoms,
disulfide bridges and non-standard polymer residues, with
branched-connected-only omitted for single-chain targets. -/
def specMediumBallAndStickClass (suppressBranched : Bool) (a : Atom) : Bool :=
  a.ligandPlusConnected || (!suppressBranched && a.branchedConnectedOnly) ||
    a.disulfideBridges || a.nonStandardPolymer

/-! ## Canonical camera-orientation flips
(src/focus-camera/focus-first-residue.ts, src/focus-camera/focus-util.ts) -/

/-- A 3-vector with rational coordinates (the float coordinates of the
source, embedded exactly for the sign logic under test). -/
structure Vec3Q where
  x : ℚ
  y : ℚ
  z : ℚ
deriving Repr, DecidableEq

/-- Componentwise negation, Vec3.negate. -/
def Vec3Q.neg (v : Vec3Q) : Vec3Q := ⟨-v.x, -v.y, -v.z⟩

/-- The two flip tags pushed by getAxesToFlip. -/
inductive FlipAxis
  | aroundY
  | aroundX
deriving Repr, DecidableEq

/-- calculateDisplacement (src/focus-camera/focus-util.ts): per position,
the signed distance to the plane through `origin` with normal `normalDir`.
`Math.sqrt` is an external builtin and is passed in as `sqrt`. -/
def calculateDisplacement (sqrt : ℚ → ℚ) (positions : List Vec3Q)
    (origin normalDir : Vec3Q) : List ℚ :=
  let A := normalDir.x
  let B := normalDir.y
  let C := normalDir.z
  let D := -A * origin.x - B * origin.y - C * origin.z
  positions.map (fun p => (A * p.x + B * p.y + C * p.z + D) / sqrt (A * A + B * B + C * C))

/-- getAxesToFlip (src/focus-camera/focus-first-residue.ts lines 63-70):
the reference point is handed to calculateDisplacement as a one-point
position array; aroundY is pushed when the displacement against
`normalDir` (the minor axis dirB) is negative, aroundX when the
displacement against `up` (the major axis dirA) is negative. -/
def getAxesToFlip (sqrt : ℚ → ℚ) (position origin up normalDir : Vec3Q) : List FlipAxis :=
  let toYAxis := (calculateDisplacement sqrt [position] origin normalDir).headD 0
  let toXAxis := (calculateDisplacement sqrt [position] origin up).headD 0
  (if toYAxis < 0 then [FlipAxis.aroundY] else []) ++
    (if toXAxis < 0 then [FlipAxis.aroundX] else [])

/-- The forEach over the flip list in getFocus (src/focus-camera/
focus-first-residue.ts lines 29-36): aroundY negates dirC, aroundX negates
both dirA and dirC, mutating the pair in sequence. -/
def applyFlips (axes : List FlipAxis) (dirA dirC : Vec3Q) : Vec3Q × Vec3Q :=
  axes.foldl
    (fun p a =>
      match a with
      | FlipAxis.aroundY => (p.1, p.2.neg)
      | FlipAxis.aroundX => (p.1.neg, p.2.neg))
    (dirA, dirC)

/-! ## Orchestrator enumeration (src/render.ts, ImageRenderer.renderAll) -/

/-- Output name of a model image, `fileName_model-n` (1-based index). -/
def modelImageName (fileName : String) (oneIndex : Nat) : String :=
  fileName ++ "_model-" ++ Nat.repr oneIndex

/-- Output name of an assembly image, `fileName_assembly-id`. -/
def assemblyImageName (fileName : String) (asmId : String) : String :=
  fileName ++ "_assembly-" ++ asmId

/-- Output name of a chain image, `fileName_chain-name`. -/
def chainImageName (fileName : String) (chainName : String) : String :=
  fileName ++ "_chain-" ++ chainName

/-- Output name of the ensemble image, `fileName_models`. -/
def modelsImageName (fileName : String) : String :=
  fileName ++ "_models"

/-- One row of the representative model's chain table, with its chain
identifier and owning entity id. -/
structure ChainRow where
  label_asym_id : String
  label_entity_id : String
deriving Repr, DecidableEq

/-- One row of the entity table: entity id and its type string
(polymer, non-polymer, water, branched). -/
structure EntityRow where
  id : String
  entityType : String
deriving Repr, DecidableEq

/-- The trajectory data renderAll reads: the frame count, the
representative model's assembly ids, chain table and entity table. -/
structure TrajectoryData where
  frameCount : Nat
  assemblies : List String
  chains : List ChainRow
  entities : List EntityRow
deriving Repr, DecidableEq

/-- entities.getEntityIndex followed by entities.data.type.value: the type
of the entity owning a chain, none when the entity id is unknown (in which
case the source's polymer test is false and the chain is skipped). -/
def getEntityType (entities : List EntityRow) (eid : String) : Option String :=
  (entities.find? (fun e => e.id == eid)).map (fun e => e.entityType)

/-- Translation of ImageRenderer.renderAll (src/render.ts lines 458-486)
as the ordered list of image names it produces: all model frames by
1-based index, then all assemblies of the representative model, then every
chain whose owning entity is of type polymer, then the ensemble image when
the trajectory has more than one frame. -/
def renderAllNames (t : TrajectoryData) (fileName : String) : List String :=
  let afterModels :=
    (List.range t.frameCount).foldl
      (fun acc i => acc ++ [modelImageName fileName (i + 1)]) []
  let afterAssemblies :=
    t.assemblies.foldl (fun acc asmId => acc ++ [assemblyImageName fileName asmId]) afterModels
  let afterChains :=
    t.chains.foldl
      (fun acc c =>
        if getEntityType t.entities c.label_entity_id == some "polymer" then
          acc ++ [chainImageName fileName c.label_asym_id]
        else acc)
      afterAssemblies
  if 1 < t.frameCount then afterChains ++ [modelsImageName fileName] else afterChains

/-! ## CLI startup path checks (src/render-main.ts) -/

/-- Observable effects of the CLI startup path checks. -/
structure CliStartupResult where
  exitCode : Option Nat := none
  mkdirRecursiveCalled : Bool := false
  renderInvoked : Bool := false
deriving Repr, DecidableEq

/-- Translation of the path checks at src/render-main.ts: a missing input
path prints an error and exits with code 1 before main() ever runs; a
missing output path is created with fs.mkdirSync(recursive) and processing
continues into main(), which invokes the renderer. -/
def cliStartup (inputPathExists outputPathExists : Bool) : CliStartupResult :=
  if !inputPathExists then { exitCode := some 1 }
  else { mkdirRecursiveCalled := !outputPathExists, renderInvoked := true }

/-! ## Chain-list resolver

The CLI (src/render-main.ts) declares the `chain-list` subcommand and
dispatches it to `ImageRenderer.renderChainList`; the body of
`renderChainList` and its token resolver are not part of the sources under
src/, so the resolver below is modelled from the specification text. -/

/-- Modelled from the spec: a symmetry operator of an assembly's operator
group carries a name and the ordered list of integer oper ids it composes
(renderChainList's operator data is missing from src/). -/
structure SymOperator where
  name : String
  operIds : List Nat
deriving Repr, DecidableEq

/-- Modelled from the spec: an operator group of an assembly. -/
structure OperatorGroup where
  operators : List SymOperator
deriving Repr, DecidableEq

/-- Modelled from the spec: an assembly with a stable id and one or more
operator groups. -/
structure Assembly where
  id : String
  operatorGroups : List OperatorGroup
deriving Repr, DecidableEq

/-- Insertion of a number into a sorted list, used to sort oper ids. -/
def insertSortedNat (n : Nat) : List Nat → List Nat
  | [] => [n]
  | m :: ms => if n ≤ m then n :: m :: ms else m :: insertSortedNat n ms

/-- Numeric sort of a list of oper ids. -/
def sortNat (l : List Nat) : List Nat := l.foldr insertSortedNat []

/-- Modelled from the spec: the lookup key of an operator-composition id
list is the sorted, comma-joined rendering of its integers. -/
def operIdKey (ids : List Nat) : String :=
  String.intercalate "," ((sortNat ids).map Nat.repr)

/-- Modelled from the spec: scan every operator of every operator group of
the assembly, associating the key of its oper-id list with its name, and
look a key up in that association. -/
def lookupOperatorName (a : Assembly) (key : String) : Option String :=
  let table := a.operatorGroups.foldl
    (fun acc g => g.operators.foldl (fun acc2 op => acc2 ++ [(operIdKey op.operIds, op.name)]) acc) []
  (table.find? (fun p => p.1 == key)).map (fun p => p.2)

/-- Modelled from the spec: a parsed unit of the chain-list mini-language,
a chain name either bare or qualified by an operator name or by a set of
integer operator-composition ids. -/
inductive ChainQualifier
  | bare
  | byName (opName : String)
  | byList (ids : List Nat)
deriving Repr, DecidableEq

/-- Modelled from the spec: a chain-operator token of the mini-language. -/
structure ChainOperatorToken where
  chainName : String
  qualifier : ChainQualifier
deriving Repr, DecidableEq

/-- Numeric value of a digit character, none for a non-digit. -/
def digitVal (c : Char) : Option Nat :=
  if c.isDigit then some (c.toNat - '0'.toNat) else none

/-- Base-ten reading of a nonempty digit-character list. -/
def parseNatFromChars (cs : List Char) : Option Nat :=
  match cs with
  | [] => none
  | _ =>
    cs.foldl
      (fun acc c =>
        match acc, digitVal c with
        | some n, some d => some (n * 10 + d)
        | _, _ => none)
      (some 0)

/-- Base-ten reading of an integer token. -/
def parseNatTok (s : String) : Option Nat := parseNatFromChars s.data

/-- Traversal turning a list of integer tokens into their values, none as
soon as one token is not an integer. -/
def parseNatToks (ts : List String) : Option (List Nat) :=
  ts.foldr
    (fun t acc =>
      match parseNatTok t, acc with
      | some n, some ns => some (n :: ns)
      | _, _ => none)
    (some [])

/-- Modelled from the spec: parse one run of the flat token grammar, a
chain name optionally followed by `operator-name <name>` or
`operator-list <int> <int> ...`; anything else (an empty run, an unknown
qualifier keyword, a non-integer operator-list entry) is a fatal
validation error. -/
def parseChainRun (run : List String) : Except String ChainOperatorToken :=
  match run with
  | [name] => Except.ok ⟨name, ChainQualifier.bare⟩
  | [name, "operator-name", opName] => Except.ok ⟨name, ChainQualifier.byName opName⟩
  | name :: "operator-list" :: rest =>
    match rest, parseNatToks rest with
    | _ :: _, some ids => Except.ok ⟨name, ChainQualifier.byList ids⟩
    | _, _ => Except.error "invalid operator-list"
  | _ => Except.error "invalid chain run"

/-- Modelled from the spec: parse the flat token stream of the chain-list
mini-language, with `chain` as the separator keyword beginning each run. -/
def parseChainList (tokens : List String) : Except String (List ChainOperatorToken) :=
  match tokens.splitOn "chain" with
  | [] :: runs => runs.mapM parseChainRun
  | _ => Except.error "chain list must begin with the chain keyword"

/-- Modelled from the spec: a resolved token, a chain name with an
optional operator-name restriction. -/
structure ResolvedChainSelector where
  chainName : String
  operatorName : Option String
deriving Repr, DecidableEq

/-- Modelled from the spec: resolve one token against the assembly; an
operator-list is sorted, joined and required to match the assembly's
operator lookup exactly (a miss is fatal), an operator-name is passed
through untouched, a bare chain selects without operator filtering. -/
def resolveChainToken (a : Assembly) (t : ChainOperatorToken) :
    Except String ResolvedChainSelector :=
  match t.qualifier with
  | ChainQualifier.bare => Except.ok ⟨t.chainName, none⟩
  | ChainQualifier.byName opName => Except.ok ⟨t.chainName, some opName⟩
  | ChainQualifier.byList ids =>
    match lookupOperatorName a (operIdKey ids) with
    | some opName => Except.ok ⟨t.chainName, some opName⟩
    | none => Except.error "operator-list does not match any operator of the assembly"

/-- One atom of the symmetry-expanded structure: its chain identifier and
the name of the operator that produced its copy. -/
structure SymAtom where
  label_asym_id : String
  operatorName : String
deriving Repr, DecidableEq

/-- Modelled from the spec: the selection of one resolved token, the atoms
whose chain identifier equals the given name, further restricted by
operator-name equality when a qualifier is present. -/
def selectChainToken (atoms : List SymAtom) (sel : ResolvedChainSelector) : List SymAtom :=
  atoms.filter
    (fun at' =>
      at'.label_asym_id == sel.chainName &&
        match sel.operatorName with
        | some opName => at'.operatorName == opName
        | none => true)

/-- Order-preserving set-union of atom lists. -/
def unionAtoms (ls : List (List SymAtom)) : List SymAtom :=
  ls.foldl (fun acc l => acc ++ l.filter (fun x => !acc.contains x)) []

/-- Modelled from the spec: resolution of a whole token list, failing as
soon as one token fails to resolve. -/
def resolveChainTokens (a : Assembly) : List ChainOperatorToken →
    Except String (List ResolvedChainSelector)
  | [] => Except.ok []
  | t :: ts =>
    match resolveChainToken a t, resolveChainTokens a ts with
    | Except.ok r, Except.ok rs => Except.ok (r :: rs)
    | Except.error e, _ => Except.error e
    | _, Except.error e => Except.error e

/-- Modelled from the spec: the full chain-list pipeline, parsing the
token stream, resolving each token against the assembly and unioning the
per-token selections over the symmetry-expanded structure. -/
def chainListStructure (a : Assembly) (atoms : List SymAtom) (tokens : List String) :
    Except String (List SymAtom) :=
  match parseChainList tokens with
  | Except.error e => Except.error e
  | Except.ok parsed =>
    match resolveChainTokens a parsed with
    | Except.error e => Except.error e
    | Except.ok resolved => Except.ok (unionAtoms (resolved.map (selectChainToken atoms)))

/-! ## Concrete inputs used to settle the claims -/

/-- An atom carrying only the backbone-trace class. -/
def atomTrace : Atom := { trace := true }

/-- An atom carrying only the water class. -/
def atomWater : Atom := { water := true }

/-- An atom carrying only the ion class. -/
def atomIon : Atom := { ion := true }

/-- An atom in the polymer and trace classes. -/
def atomPolymer : Atom := { polymer := true, trace := true }

/-- A stand-in for the external bounding-sphere computation that counts
the atoms of the derived structure, so that different structures get
different radii. -/
def lenBoundary (atoms : List Atom) : ℚ := (atoms.length : ℚ)

/-- A stand-in for the external polymerUnitCount of a derived structure. -/
def zeroPuc (_atoms : List Atom) : Nat := 0

/-- A Medium-size structure (100 polymer residues, not fiber-like) whose
atoms are one trace atom and one water atom. -/
def mediumWaterStructure : MolStructure :=
  { atoms := [atomTrace, atomWater], polymerResidueCount := 100, polymerUnitCount := 1 }

/-- A Medium-size structure whose single atom is an ion. -/
def mediumIonStructure : MolStructure :=
  { atoms := [atomIon], polymerResidueCount := 100, polymerUnitCount := 1 }

/-- A Big structure (5000 polymer residues) with one polymer atom. -/
def bigStructure : MolStructure :=
  { atoms := [atomPolymer], polymerResidueCount := 5000, polymerUnitCount := 2 }

/-- The trajectory of the enumeration claim: 2 model frames, 1 assembly on
the representative model, chains A, B, C owned by a polymer entity and
chain D owned by a water entity. -/
def exTrajectory : TrajectoryData :=
  { frameCount := 2
    assemblies := ["1"]
    chains := [⟨"A", "1"⟩, ⟨"B", "1"⟩, ⟨"C", "1"⟩, ⟨"D", "2"⟩]
    entities := [⟨"1", "polymer"⟩, ⟨"2", "water"⟩] }

/-- The assembly of the chain-list round-trip claim: one operator group
holding the operator named ASM_1 composed of oper ids [1, 63]. -/
def exAssembly : Assembly :=
  { id := "1", operatorGroups := [⟨[⟨"ASM_1", [1, 63]⟩]⟩] }

/-- A symmetry-expanded atom list over chains A and B and two operator
copies. -/
def exSymAtoms : List SymAtom :=
  [⟨"A", "ASM_1"⟩, ⟨"A", "XYZ"⟩, ⟨"B", "ASM_1"⟩]

/-! ## Theorems -/

/-- Claim C1, counterexample: the synthetic fiber-like structure with 5000
polymer residues, one symmetry group and 3 units of 10 polymer atoms each
satisfies the fiber predicate, yet classify returns Big, not Small — the
residue-count Big rule is evaluated before the fiber rule. -/
theorem c1_fiber5000_classifies_big :
    isFiberLike fiber5000 = true ∧
    fiber5000.polymerResidueCount = 5000 ∧
    getStructureSize fiber5000 = StructureSize.Big ∧
    getStructureSize fiber5000 ≠ StructureSize.Small := by
  decide

/-- Claim C1 (amended): a fiber-like structure classifies Small only as
long as its polymer residue count does not exceed 4000; the fiber rule
precedes the Small/Medium residue-count rules but not the Big rule. -/
theorem c1_fiber_small_up_to_4000 (s : MolStructure)
    (hfiber : isFiberLike s = true)
    (hcount : s.polymerResidueCount ≤ 4000) :
    getStructureSize s = StructureSize.Small := by
  unfold getStructureSize
  have h4000 : ¬ 4000 < s.polymerResidueCount := by omega
  simp [h4000, hfiber]

/-- Claim C1, witness: a fiber-like structure with 500 polymer residues
(one group, 3 units of 10 polymer atoms) classifies Small. -/
theorem c1_fiber_small_up_to_4000_witness :
    isFiberLike fiber500 = true ∧
    fiber500.polymerResidueCount ≤ 4000 ∧
    getStructureSize fiber500 = StructureSize.Small :=
  ⟨by decide, by decide, c1_fiber_small_up_to_4000 fiber500 (by decide) (by decide)⟩

/-- Claim C6: for a non-fiber structure, polymer residue count 9
classifies Small, exactly 10 classifies Medium, exactly 4000 classifies
Medium and 4001 classifies Big. -/
theorem c6_classification_boundaries (s : MolStructure)
    (hfiber : isFiberLike s = false) :
    (s.polymerResidueCount = 9 → getStructureSize s = StructureSize.Small) ∧
    (s.polymerResidueCount = 10 → getStructureSize s = StructureSize.Medium) ∧
    (s.polymerResidueCount = 4000 → getStructureSize s = StructureSize.Medium) ∧
    (s.polymerResidueCount = 4001 → getStructureSize s = StructureSize.Big) := by
  refine ⟨?_, ?_, ?_, ?_⟩ <;> intro h <;> simp [getStructureSize, h, hfiber]

/-- Claim C6, witness: the boundary values on concrete non-fiber
structures with 9, 10, 4000 and 4001 polymer residues. -/
theorem c6_classification_boundaries_witness :
    isFiberLike (plainStructure 9) = false ∧
    getStructureSize (plainStructure 9) = StructureSize.Small ∧
    getStructureSize (plainStructure 10) = StructureSize.Medium ∧
    getStructureSize (plainStructure 4000) = StructureSize.Medium ∧
    getStructureSize (plainStructure 4001) = StructureSize.Big :=
  ⟨by decide,
    (c6_classification_boundaries (plainStructure 9) (by decide)).1 (by decide),
    (c6_classification_boundaries (plainStructure 10) (by decide)).2.1 (by decide),
    (c6_classification_boundaries (plainStructure 4000) (by decide)).2.2.1 (by decide),
    (c6_classification_boundaries (plainStructure 4001) (by decide)).2.2.2 (by decide)⟩

/-- Claim C2, counterexample: at a reference point whose signed distances
to both planes are negative (point (-1,-1,0), origin 0, major axis
(1,0,0), minor axis (0,1,0)), the minor-axis distance is negative yet BOTH
flips are applied: the net effect on axes (1,0,0) and (0,0,1) negates the
first axis and leaves the third unchanged, so the two checks are not
mutually exclusive and more than one flip is applied. -/
theorem c2_both_flips_applied :
    (calculateDisplacement (fun q => q) [⟨-1, -1, 0⟩] ⟨0, 0, 0⟩ ⟨0, 1, 0⟩).headD 0 < 0 ∧
    (calculateDisplacement (fun q => q) [⟨-1, -1, 0⟩] ⟨0, 0, 0⟩ ⟨1, 0, 0⟩).headD 0 < 0 ∧
    getAxesToFlip (fun q => q) ⟨-1, -1, 0⟩ ⟨0, 0, 0⟩ ⟨1, 0, 0⟩ ⟨0, 1, 0⟩ =
      [FlipAxis.aroundY, FlipAxis.aroundX] ∧
    applyFlips (getAxesToFlip (fun q => q) ⟨-1, -1, 0⟩ ⟨0, 0, 0⟩ ⟨1, 0, 0⟩ ⟨0, 1, 0⟩)
        ⟨1, 0, 0⟩ ⟨0, 0, 1⟩ =
      (⟨-1, 0, 0⟩, ⟨0, 0, 1⟩) := by
  norm_num [calculateDisplacement, getAxesToFlip, applyFlips, Vec3Q.neg]

/-- Net effect of applying the flip list built from the two signed
distances: the first axis is negated exactly when the major-axis distance
is negative, the third axis exactly when one but not both distances are
negative. -/
theorem flip_list_net_effect (toY toX : ℚ) (dirA dirC : Vec3Q) :
    applyFlips ((if toY < 0 then [FlipAxis.aroundY] else []) ++
        (if toX < 0 then [FlipAxis.aroundX] else [])) dirA dirC =
      (if toX < 0 then dirA.neg else dirA,
       if (toY < 0 ∧ ¬ toX < 0) ∨ (¬ toY < 0 ∧ toX < 0) then dirC.neg else dirC) := by
  by_cases hY : toY < 0 <;> by_cases hX : toX < 0 <;>
    simp [hY, hX, applyFlips, Vec3Q.neg]

/-- Claim C2 (amended): the two plane checks are evaluated Y-check first
but independently, not exclusively: a negative minor-axis distance negates
the third axis, a negative major-axis distance negates the first and third
axes, and when both distances are negative both flips are applied, so that
the net effect is the first axis negated and the third axis unchanged. -/
theorem c2_flips_cumulative (sqrt : ℚ → ℚ) (position origin up normalDir dirA dirC : Vec3Q) :
    applyFlips (getAxesToFlip sqrt position origin up normalDir) dirA dirC =
      (if (calculateDisplacement sqrt [position] origin up).headD 0 < 0
        then dirA.neg else dirA,
       if ((calculateDisplacement sqrt [position] origin normalDir).headD 0 < 0 ∧
            ¬ (calculateDisplacement sqrt [position] origin up).headD 0 < 0) ∨
          (¬ (calculateDisplacement sqrt [position] origin normalDir).headD 0 < 0 ∧
            (calculateDisplacement sqrt [position] origin up).headD 0 < 0)
        then dirC.neg else dirC) :=
  flip_list_net_effect
    ((calculateDisplacement sqrt [position] origin normalDir).headD 0)
    ((calculateDisplacement sqrt [position] origin up).headD 0) dirA dirC

/-- Claim C3, counterexample: on a Medium structure holding one trace atom
and one water atom, with the bounding-sphere stand-in that counts atoms,
the camera radius after render is 1 (the reduced focus structure's radius)
while the full drawn structure's radius is 2 — the radius is not taken
from the full target structure. -/
theorem c3_camera_radius_not_full_structure :
    (render lenBoundary zeroPuc mediumWaterStructure {}).camera.radius = 1 ∧
    lenBoundary mediumWaterStructure.atoms = 2 ∧
    (render lenBoundary zeroPuc mediumWaterStructure {}).camera.radius ≠
      lenBoundary mediumWaterStructure.atoms := by
  decide

/-- Claim C3 (amended): after the camera focus operation, radius and
radiusMax are both set to the bounding-sphere radius of the focus
structure handed to focusCamera — the same reduced structure that decided
the viewing angle — not of the full target structure being drawn. -/
theorem c3_camera_radius_from_focus_structure
    (boundary : List Atom → ℚ) (puc : List Atom → Nat)
    (s : MolStructure) (options : RenderOptions) :
    (render boundary puc s options).camera.radius =
      boundary (render boundary puc s options).focusAtoms ∧
    (render boundary puc s options).camera.radiusMax =
      boundary (render boundary puc s options).focusAtoms := by
  unfold render focusCamera
  by_cases h1 : (!options.suppressSurface && getStructureSize s == StructureSize.Big) = true
  · simp [h1]
  · by_cases h2 : (getStructureSize s == StructureSize.Small) = true <;>
      simp [h1, h2]

/-- Claim C5, counterexample: the ensemble target calls render with the
surface suppressed, so a Big ensemble structure is drawn with the
cartoon + carbohydrate + ball-and-stick path: three layers and no surface
layer, not the single-Surface policy the claim states for every target
kind. -/
theorem c5_big_ensemble_takes_cartoon_path :
    getStructureSize bigStructure = StructureSize.Big ∧
    (renderModelsTarget lenBoundary zeroPuc bigStructure 1).layers.map Layer.kind =
      [LayerKind.cartoon, LayerKind.carbohydrate, LayerKind.ballAndStick] ∧
    (renderModelsTarget lenBoundary zeroPuc bigStructure 1).layers.filter
        (fun l => l.kind == LayerKind.gaussianSurface) = [] ∧
    (renderModelsTarget lenBoundary zeroPuc bigStructure 1).layers.length ≠ 1 := by
  decide

/-- Claim C5 (amended): for every model, assembly or chain target — any
render call that does not suppress the surface — a Big structure yields
exactly one layer, a gaussian Surface over the polymer-only sub-structure,
and that same sub-structure is the focus structure for camera framing; the
ensemble target suppresses the surface and is the exception. -/
theorem c5_big_surface_only_when_not_suppressed
    (boundary : List Atom → ℚ) (puc : List Atom → Nat)
    (s : MolStructure) (options : RenderOptions)
    (hsup : options.suppressSurface = false)
    (hbig : getStructureSize s = StructureSize.Big) :
    (render boundary puc s options).layers =
      [⟨LayerKind.gaussianSurface,
        getStructureFromExpression s.atoms polymerExpression,
        getColorTheme (puc (getStructureFromExpression s.atoms polymerExpression))⟩] ∧
    (render boundary puc s options).focusAtoms =
      getStructureFromExpression s.atoms polymerExpression := by
  unfold render
  simp [hsup, hbig]

/-- Claim C5, witness: a Big structure rendered as a model target (the
surface not suppressed) gets exactly the single Surface layer over its
polymer sub-structure, which is also the focus structure. -/
theorem c5_big_surface_only_witness :
    ({} : RenderOptions).suppressSurface = false ∧
    getStructureSize bigStructure = StructureSize.Big ∧
    ((render lenBoundary zeroPuc bigStructure {}).layers =
      [⟨LayerKind.gaussianSurface,
        getStructureFromExpression bigStructure.atoms polymerExpression,
        getColorTheme (zeroPuc (getStructureFromExpression bigStructure.atoms polymerExpression))⟩] ∧
    (render lenBoundary zeroPuc bigStructure {}).focusAtoms =
      getStructureFromExpression bigStructure.atoms polymerExpression) :=
  ⟨by decide, by decide,
    c5_big_surface_only_when_not_suppressed lenBoundary zeroPuc bigStructure {}
      (by decide) (by decide)⟩

/-- Claim C4, counterexample: a Medium structure whose single atom is an
ion gets that ion drawn in the ball-and-stick layer, while the union of
the four classes named by the claim is empty — the ion class is a further
atom class included in the drawn union. -/
theorem c4_ion_included_in_ball_and_stick :
    getStructureSize mediumIonStructure = StructureSize.Medium ∧
    ballAndStickLayers (render lenBoundary zeroPuc mediumIonStructure {}) =
      [⟨LayerKind.ballAndStick, [atomIon], "element-symbol"⟩] ∧
    mediumIonStructure.atoms.filter (specMediumBallAndStickClass false) = [] ∧
    (ballAndStickLayers (render lenBoundary zeroPuc mediumIonStructure {})).map Layer.atoms ≠
      [mediumIonStructure.atoms.filter (specMediumBallAndStickClass false)] := by
  decide

/-- Pointwise description of the code's Medium ball-and-stick expression:
exactly the ion class together with the four classes named by the spec
(with branched-connected-only dropped for single-chain targets). -/
theorem representation_expression_pointwise (suppressBranched : Bool) (a : Atom) :
    (if suppressBranched then RepresentationExpressionNoBranched
      else RepresentationExpression) a =
      (a.ion || specMediumBallAndStickClass suppressBranched a) := by
  cases suppressBranched <;>
    simp [RepresentationExpression, RepresentationExpressionNoBranched,
      specMediumBallAndStickClass, Bool.or_assoc]

/-- Claim C4 (amended): for every Medium target, the ball-and-stick layer
is drawn over exactly the union of the ion class, the
ligands-plus-their-connected-atoms, branched-connected-only atoms,
disulfide bridges and non-standard polymer residues (branched-connected-
only being omitted for single-chain targets); ions are included in
addition to the four classes named by the claim. -/
theorem c4_medium_ball_and_stick_set
    (boundary : List Atom → ℚ) (puc : List Atom → Nat)
    (s : MolStructure) (options : RenderOptions)
    (hmed : getStructureSize s = StructureSize.Medium) :
    ballAndStickLayers (render boundary puc s options) =
      [⟨LayerKind.ballAndStick,
        s.atoms.filter (fun a => a.ion || specMediumBallAndStickClass options.suppressBranched a),
        "element-symbol"⟩] := by
  have hfilter : ∀ b : Bool,
      getStructureFromExpression s.atoms
        (if b then RepresentationExpressionNoBranched else RepresentationExpression) =
      s.atoms.filter (fun a => a.ion || specMediumBallAndStickClass b a) :=
    fun b => List.filter_congr (fun a _ => representation_expression_pointwise b a)
  unfold ballAndStickLayers render
  rw [hmed]
  cases hb : options.suppressBranched
  · simp only [hb]
    simp [List.filter_append]
    simpa using hfilter false
  · simp only [hb]
    simp [List.filter_append]
    simpa using hfilter true

/-- Claim C4, witness: the Medium ion-only structure's ball-and-stick
layer equals the filter by the ion-extended union. -/
theorem c4_medium_ball_and_stick_set_witness :
    getStructureSize mediumIonStructure = StructureSize.Medium ∧
    ballAndStickLayers (render lenBoundary zeroPuc mediumIonStructure {}) =
      [⟨LayerKind.ballAndStick,
        mediumIonStructure.atoms.filter
          (fun a => a.ion || specMediumBallAndStickClass false a),
        "element-symbol"⟩] :=
  ⟨by decide,
    c4_medium_ball_and_stick_set lenBoundary zeroPuc mediumIonStructure {} (by decide)⟩

/-- Appending one image per element in a left fold is the same as
appending the mapped list. -/
theorem foldl_append_singleton (f : α → β) :
    ∀ (l : List α) (init : List β),
      l.foldl (fun acc x => acc ++ [f x]) init = init ++ l.map f := by
  intro l
  induction l with
  | nil => intro init; simp
  | cons x xs ih => intro init; simp [ih]

/-- Appending one image per element passing a test in a left fold is the
same as appending the mapped filtered list. -/
theorem foldl_append_singleton_if (p : α → Bool) (f : α → β) :
    ∀ (l : List α) (init : List β),
      l.foldl (fun acc x => if p x then acc ++ [f x] else acc) init =
        init ++ (l.filter p).map f := by
  intro l
  induction l with
  | nil => intro init; simp
  | cons x xs ih =>
    intro init
    by_cases hx : p x = true <;> simp [hx, ih]

/-- Claim C7, counterexample: the trajectory with 2 model frames, 1
assembly and 3 polymer chains plus 1 water chain produces 7 images, not 6,
because the two frames also trigger the ensemble image. -/
theorem c7_example_produces_seven_images :
    (renderAllNames exTrajectory "file").length = 7 ∧
    (renderAllNames exTrajectory "file").length ≠ 6 := by
  decide

/-- Claim C7 (amended): a full renderAll produces exactly one image per
model frame (1-based), one per assembly of the representative model, one
per chain whose owning entity is of type polymer (other chains never
produce an image), plus one ensemble image exactly when the trajectory has
more than one frame; for 2 models, 1 assembly and 3 polymer chains plus 1
water chain this is 7 images (the 6 per-target images plus the ensemble
image). -/
theorem c7_renderAll_enumeration (t : TrajectoryData) (fileName : String) :
    renderAllNames t fileName =
      (List.range t.frameCount).map (fun i => modelImageName fileName (i + 1))
        ++ t.assemblies.map (assemblyImageName fileName)
        ++ (t.chains.filter
              (fun c => getEntityType t.entities c.label_entity_id == some "polymer")).map
            (fun c => chainImageName fileName c.label_asym_id)
        ++ (if 1 < t.frameCount then [modelsImageName fileName] else []) ∧
    (renderAllNames t fileName).length =
      t.frameCount + t.assemblies.length
        + (t.chains.filter
            (fun c => getEntityType t.entities c.label_entity_id == some "polymer")).length
        + (if 1 < t.frameCount then 1 else 0) := by
  have henum : renderAllNames t fileName =
      (List.range t.frameCount).map (fun i => modelImageName fileName (i + 1))
        ++ t.assemblies.map (assemblyImageName fileName)
        ++ (t.chains.filter
              (fun c => getEntityType t.entities c.label_entity_id == some "polymer")).map
            (fun c => chainImageName fileName c.label_asym_id)
        ++ (if 1 < t.frameCount then [modelsImageName fileName] else []) := by
    simp only [renderAllNames]
    rw [foldl_append_singleton_if, foldl_append_singleton, foldl_append_singleton]
    split <;> simp
  refine ⟨henum, ?_⟩
  rw [henum]
  simp [List.length_append]
  split <;> simp <;> omega

/-- Claim C8: for an assembly in which the key of oper ids [1,63] resolves
to the operator name ASM_1, the token run `chain A operator-list 63 1`
yields the same structure as `chain A operator-name ASM_1` (the given ids
are sorted and matched exactly), and an operator-list that matches no
operator (such as 999) is a validation error, not a silent fallback. -/
theorem c8_operator_list_roundtrip (a : Assembly) (atoms : List SymAtom)
    (h1 : lookupOperatorName a (operIdKey [63, 1]) = some "ASM_1")
    (h2 : lookupOperatorName a (operIdKey [999]) = none) :
    chainListStructure a atoms ["chain", "A", "operator-list", "63", "1"] =
      chainListStructure a atoms ["chain", "A", "operator-name", "ASM_1"] ∧
    (chainListStructure a atoms ["chain", "A", "operator-list", "999"]).isOk = false := by
  have p1 : parseChainList ["chain", "A", "operator-list", "63", "1"] =
      Except.ok [⟨"A", ChainQualifier.byList [63, 1]⟩] := rfl
  have p2 : parseChainList ["chain", "A", "operator-name", "ASM_1"] =
      Except.ok [⟨"A", ChainQualifier.byName "ASM_1"⟩] := rfl
  have p3 : parseChainList ["chain", "A", "operator-list", "999"] =
      Except.ok [⟨"A", ChainQualifier.byList [999]⟩] := rfl
  have r1 : resolveChainToken a ⟨"A", ChainQualifier.byList [63, 1]⟩ =
      Except.ok ⟨"A", some "ASM_1"⟩ := by
    simp [resolveChainToken, h1]
  have r3 : resolveChainToken a ⟨"A", ChainQualifier.byList [999]⟩ =
      Except.error "operator-list does not match any operator of the assembly" := by
    simp [resolveChainToken, h2]
  constructor
  · simp [chainListStructure, p1, p2, resolveChainTokens, r1, resolveChainToken, h1]
  · simp [chainListStructure, p3, resolveChainTokens, r3, h2, Except.isOk, Except.toBool]

/-- Claim C8, witness: on the concrete assembly whose single operator
group holds ASM_1 with oper ids [1,63], both token runs select the same
atoms and the 999 operator-list fails. -/
theorem c8_operator_list_roundtrip_witness :
    lookupOperatorName exAssembly (operIdKey [63, 1]) = some "ASM_1" ∧
    lookupOperatorName exAssembly (operIdKey [999]) = none ∧
    (chainListStructure exAssembly exSymAtoms ["chain", "A", "operator-list", "63", "1"] =
      chainListStructure exAssembly exSymAtoms ["chain", "A", "operator-name", "ASM_1"] ∧
    (chainListStructure exAssembly exSymAtoms ["chain", "A", "operator-list", "999"]).isOk = false) :=
  ⟨by decide, by decide,
    c8_operator_list_roundtrip exAssembly exSymAtoms (by decide) (by decide)⟩

/-- Claim C9: a missing input path exits with code 1 before any rendering
work; a missing output path is not an error — the directory is created
recursively and processing continues into the renderer. -/
theorem c9_cli_path_checks (outputPathExists : Bool) :
    cliStartup false outputPathExists =
      { exitCode := some 1, mkdirRecursiveCalled := false, renderInvoked := false } ∧
    cliStartup true false =
      { exitCode := none, mkdirRecursiveCalled := true, renderInvoked := true } ∧
    cliStartup true true =
      { exitCode := none, mkdirRecursiveCalled := false, renderInvoked := true } := by
  refine ⟨?_, by decide, by decide⟩
  cases outputPathExists <;> decide

/-- Claim C10: the ensemble target's cartoon color theme is decided solely
from the representative model's polymer unit count — sequence-id for
exactly one polymer unit, polymer-id otherwise — and no layer of the
ensemble image ever uses the polymer-index theme. -/
theorem c10_ensemble_cartoon_theme
    (boundary : List Atom → ℚ) (puc : List Atom → Nat)
    (ensemble : MolStructure) (firstModelPolymerUnitCount : Nat) :
    ((renderModelsTarget boundary puc ensemble firstModelPolymerUnitCount).layers.head?.map
        Layer.colorTheme) =
      some (if firstModelPolymerUnitCount == 1 then "sequence-id" else "polymer-id") ∧
    ∀ l ∈ (renderModelsTarget boundary puc ensemble firstModelPolymerUnitCount).layers,
      l.colorTheme ≠ "polymer-index" := by
  unfold renderModelsTarget render
  cases h1 : firstModelPolymerUnitCount == 1 <;>
    cases h2 : getStructureSize ensemble == StructureSize.Small <;>
      simp [h1, h2, resolveColorTheme]

end Molrender
